import Mathlib

/-!
Verification development for the Dynamics 365 MCP server
(`dave-palt/mcp-dynamics-365`).

This file gives a shallow embedding of the transport/session layer of the
server and proves properties about it:

* the token validator `validateAccessToken` (src/auth/token-validator.ts)
  together with its in-memory TTL cache (`getCachedData`/`setCachedData`);
* the Express HTTP front end `startHttpTransport`
  (src/transports/http-transport.ts, OAuth-enabled variant): the auth
  middleware, the OAuth discovery route and the `POST/GET/DELETE /mcp`
  handlers, composed into a single request pipeline that mirrors Express
  routing (mount-prefix matching for `app.use`, registration order);
* the no-auth variant of `startHttpTransport` and the inline handlers of
  `D365MCPServer.run` (src/server.ts), embedded separately so that they
  can be compared;
* the tool dispatcher (`setupToolHandlers` / `getAvailableTools` in
  src/server.ts) and the tool methods `getEntitySchema` / `queryEntities`.

External effects (jwt decode/verify, axios HTTP calls, jwk-to-pem, the
backing Dynamics 365 API client, `Date.now()`) are modelled as oracle
records: pure functions supplied as parameters whose results the embedded
code inspects exactly where the source does.  JavaScript truthiness of
optional strings (`undefined`/`''` are falsy) is modelled by `jsTruthy`.
-/

namespace D365

/-- A JSON value.  Numbers are modelled as integers: the only numeric
values the verified code paths inspect are HTTP status codes, array
lengths and the integral `exp` claim. -/
inductive Json where
  | null : Json
  | bool (b : Bool) : Json
  | num (n : Int) : Json
  | str (s : String) : Json
  | arr (elems : List Json) : Json
  | obj (fields : List (String × Json)) : Json

/-- Field access `j.name` on a JSON object; `none` models `undefined`. -/
def jsonField : Json → String → Option Json
  | Json.obj fields, name => fields.lookup name
  | _, _ => none

/-- JavaScript truthiness of an optional string: `undefined` and `''`
are falsy, every other string is truthy. -/
def jsTruthy : Option String → Bool
  | none => false
  | some s => s ≠ ""

/-- JavaScript `a || b` for an optional/possibly-empty string `a` with a
string default `b`. -/
def jsOr (a : Option String) (b : String) : String :=
  match a with
  | some s => if s = "" then b else s
  | none => b

/-- Template-literal rendering of a possibly-`undefined` string:
`` `${x}` `` prints the string `"undefined"` when `x` is `undefined`. -/
def templateStr : Option String → String
  | some s => s
  | none => "undefined"

/-- `s.startsWith(p)` on strings, computed over the character lists. -/
def strStartsWith (s p : String) : Bool :=
  p.toList.isPrefixOf s.toList

/-! ### Token-validator cache (src/auth/token-validator.ts, lines 5-34)

`const cache = new Map<string, CacheEntry>()` is modelled as an
association list keyed by the cache key; `Map.get`/`Map.set`/`Map.delete`
are `cacheGet`/`cacheSet`/`cacheDelete`.  Time (`Date.now()`) is in
milliseconds. -/

/-- `interface CacheEntry { data: any; expiry: number }`. -/
structure CacheEntry where
  data : Json
  expiry : Nat

/-- The in-memory cache (a `Map` keyed by string). -/
abbrev Cache := List (String × CacheEntry)

/-- `cache.get(key)`. -/
def cacheGet (c : Cache) (key : String) : Option CacheEntry :=
  c.lookup key

/-- `cache.delete(key)`. -/
def cacheDelete (c : Cache) (key : String) : Cache :=
  c.filter (fun p => p.1 != key)

/-- `cache.set(key, entry)` (replaces any existing entry for `key`). -/
def cacheSet (c : Cache) (key : String) (e : CacheEntry) : Cache :=
  (key, e) :: cacheDelete c key

/-- `getCachedData(key)`: returns the cached data while
`Date.now() < entry.expiry`; an expired entry found by the lookup is
deleted.  Returns the result together with the possibly-updated cache. -/
def getCachedData (now : Nat) (c : Cache) (key : String) : Option Json × Cache :=
  match cacheGet c key with
  | some entry =>
    if now < entry.expiry then (some entry.data, c)
    else (none, cacheDelete c key)
  | none => (none, c)

/-- `setCachedData(key, data)`: stores `data` with expiry
`Date.now() + OAUTH_TOKEN_CACHE_DURATION_MS`. -/
def setCachedData (now ttl : Nat) (c : Cache) (key : String) (data : Json) : Cache :=
  cacheSet c key { data := data, expiry := now + ttl }

/-! ### validateAccessToken (src/auth/token-validator.ts, lines 36-97) -/

/-- The outcome of `jwt.decode(token, { complete: true })`: `none` models
a `null` (undecodable) result, otherwise the decoded header is available
and `kid` is `decodedHeader.header?.kid`. -/
structure DecodedHeader where
  kid : Option String
deriving DecidableEq, Repr

/-- An axios response that resolved (did not throw). -/
structure HttpResp where
  status : Nat
  data : Json

/-- Oracles for the external effects used by `validateAccessToken`:
`jwt.decode`, `axios.get` (plain, and with a bearer `Authorization`
header), `jwkToPem`, `jwt.verify`, the clock `Date.now()` and the
configured cache TTL `OAUTH_TOKEN_CACHE_DURATION_MS`.  `Except` errors
model thrown exceptions, carrying `err.message`. -/
structure JwtEnv where
  decode : String → Option DecodedHeader
  httpGet : String → Except String HttpResp
  httpGetBearer : String → String → Except String HttpResp
  jwkToPem : Json → Except String String
  verify : String → String → Except String Json
  now : Nat
  cacheTtl : Nat

/-- The `options` argument of `validateAccessToken`.  The source field
`opaqueUserApi` is named `userInfoApi` here. -/
structure ValidationOptions where
  expectedAudience : Option String
  jwksUri : Option String
  userInfoApi : Option String
deriving DecidableEq, Repr

/-- The result object `{ valid, reason?, payload? }`. -/
structure ValidationResult where
  valid : Bool
  reason : Option String
  payload : Option Json

/-- `{ valid: false, reason }`. -/
def invalidResult (reason : String) : ValidationResult :=
  { valid := false, reason := some reason, payload := none }

/-- `{ valid: true, payload }`. -/
def validResult (payload : Json) : ValidationResult :=
  { valid := true, reason := none, payload := some payload }

/-- `jwksData.keys || []`, reading the `keys` array of the fetched JWKS
document. -/
def jwksKeys (jwksData : Json) : List Json :=
  match jsonField jwksData "keys" with
  | some (Json.arr xs) => xs
  | _ => []

/-- `k.kid` of a JWK object (kid values are strings). -/
def jwkKid (k : Json) : Option String :=
  match jsonField k "kid" with
  | some (Json.str s) => some s
  | _ => none

/-- `payload.exp && Date.now() / 1000 > payload.exp`: the expiry check.
`exp` equal to `0` is falsy in JavaScript, so it disables the check; the
division-free comparison `now > 1000 * exp` is equivalent to
`now / 1000 > exp` over the rationals. -/
def expiredCheck (now : Nat) (payload : Json) : Bool :=
  match jsonField payload "exp" with
  | some (Json.num e) => e != 0 && ((now : Int) > 1000 * e)
  | _ => false

/-- Whether `payload.aud` is exactly the string `a` (JavaScript `===`
between `payload.aud` and a string: a missing or non-string `aud` is
never `===` a string). -/
def audIsString (payload : Json) (a : String) : Bool :=
  match jsonField payload "aud" with
  | some (Json.str s) => s == a
  | _ => false

/-- `options.expectedAudience && payload.aud !== options.expectedAudience`:
the audience check (an empty `expectedAudience` is falsy and disables
it). -/
def audMismatch (expectedAudience : Option String) (payload : Json) : Bool :=
  match expectedAudience with
  | some a => a != "" && !(audIsString payload a)
  | none => false

/-- `validateAccessToken(token, flow, options)` with the module cache
passed explicitly.  Returns the result, the updated cache and the number
of network (`axios`) calls performed by this invocation.  Every thrown
exception inside the source `try` blocks is caught and turned into
`{ valid: false, reason: err.message }`, which the embedding reflects by
never having an error channel in its return type. -/
def validateAccessToken (env : JwtEnv) (token : String) (flow : String)
    (options : ValidationOptions) (cache : Cache) :
    ValidationResult × Cache × Nat :=
  if flow = "jwt" then
    match env.decode token with
    | none => (invalidResult "Invalid token", cache, 0)
    | some decodedHeader =>
      let kid := decodedHeader.kid
      match options.jwksUri with
      | none => (invalidResult "Missing JWKS URI", cache, 0)
      | some jwksUri =>
        if jwksUri = "" then (invalidResult "Missing JWKS URI", cache, 0)
        else
          let key := "jwks:" ++ jwksUri
          match getCachedData env.now cache key with
          | (some jwksData, c1) => validateJwtWithKeys env token options kid jwksData c1 0
          | (none, c1) =>
            match env.httpGet jwksUri with
            | Except.error e => (invalidResult e, c1, 1)
            | Except.ok resp =>
              let c2 := setCachedData env.now env.cacheTtl c1 key resp.data
              validateJwtWithKeys env token options kid resp.data c2 1
  else if flow = "opaque" then
    let apiUrl := jsOr options.userInfoApi "https://api.github.com/user"
    let cacheKey := "opaque:" ++ apiUrl ++ ":" ++ token
    match getCachedData env.now cache cacheKey with
    | (some userData, c1) => (validResult userData, c1, 0)
    | (none, c1) =>
      match env.httpGetBearer apiUrl token with
      | Except.error e => (invalidResult e, c1, 1)
      | Except.ok resp =>
        if resp.status = 200 then
          (validResult resp.data, setCachedData env.now env.cacheTtl c1 cacheKey resp.data, 1)
        else
          (invalidResult ("Opaque token validation failed: " ++ toString resp.status), c1, 1)
  else
    (invalidResult "Unsupported flow", cache, 0)
where
  /-- The tail of the jwt flow, from `const keys = jwksData.keys || []`
  on: key lookup by `kid`, `jwkToPem`, `jwt.verify`, expiry and audience
  checks.  `calls` is the network-call count accumulated so far. -/
  validateJwtWithKeys (env : JwtEnv) (token : String)
      (options : ValidationOptions) (kid : Option String) (jwksData : Json)
      (c : Cache) (calls : Nat) : ValidationResult × Cache × Nat :=
    let keys := jwksKeys jwksData
    match keys.find? (fun k => jwkKid k == kid) with
    | none => (invalidResult "No matching JWK found for kid", c, calls)
    | some jwk =>
      match env.jwkToPem jwk with
      | Except.error e => (invalidResult e, c, calls)
      | Except.ok pem =>
        match env.verify token pem with
        | Except.error e => (invalidResult e, c, calls)
        | Except.ok payload =>
          if expiredCheck env.now payload then (invalidResult "Token expired", c, calls)
          else if audMismatch options.expectedAudience payload then
            (invalidResult "Token audience mismatch", c, calls)
          else (validResult payload, c, calls)

/-! ### HTTP front end (src/transports/http-transport.ts and
src/server.ts)

An inbound HTTP exchange is reduced to the data the handlers actually
inspect: the verb, the path, the `mcp-session-id` and `Authorization`
headers, and `req.body?.method` (private fields of the JSON body other
than `method` are never read by the routing layer). -/

/-- An inbound HTTP request as seen by the Express handlers.
`sessionId` is `req.headers['mcp-session-id']` (`none` = header absent),
`authorization` is `req.headers['authorization']`, and `bodyMethod` is
`req.body?.method` (`none` models both an absent field and a non-string
value, neither of which is `===` to a string literal). -/
structure Request where
  method : String
  path : String
  sessionId : Option String
  authorization : Option String
  bodyMethod : Option String
deriving DecidableEq, Repr

/-- The OAuth discovery document returned by
`GET /mcp/.well-known/oauth-protected-resource`. -/
structure DiscoveryDoc where
  resource : Option String
  authorizationServers : List (Option String)
  issuer : Option String
  jwksUri : Option String
  tokenEndpoint : Option String
  responseTypesSupported : List String
  grantTypesSupported : List String
deriving DecidableEq, Repr

/-- A response body produced by the transport layer. -/
inductive Body where
  /-- `{ jsonrpc: '2.0', error: { code, message }, id: null }`. -/
  | rpcError (code : Int) (message : String)
  /-- `res.send(text)` of a plain string. -/
  | plain (s : String)
  /-- The discovery document. -/
  | discovery (d : DiscoveryDoc)
  /-- `{ error: message }`. -/
  | errorJson (message : String)
deriving DecidableEq, Repr

/-- An HTTP response: status, optional `WWW-Authenticate` header, body. -/
structure Response where
  status : Nat
  wwwAuthenticate : Option String
  body : Body
deriving DecidableEq, Repr

/-- The 400 response of the `POST /mcp` handler's else-branch. -/
def badRequestResponse : Response :=
  { status := 400, wwwAuthenticate := none,
    body := Body.rpcError (-32000) "Bad Request: No valid session ID provided" }

/-- The 500 response of the `POST /mcp` handler's catch-branch. -/
def internalErrorResponse : Response :=
  { status := 500, wwwAuthenticate := none,
    body := Body.rpcError (-32603) "Internal server error" }

/-- The 400 response of the `GET /mcp` and `DELETE /mcp` handlers. -/
def invalidSessionResponse : Response :=
  { status := 400, wwwAuthenticate := none,
    body := Body.plain "Invalid or missing session ID" }

/-- The 401 response of the auth middleware: `WWW-Authenticate` challenge
plus JSON-RPC error `-32001` with the given message. -/
def unauthorizedResp (message : String) : Response :=
  { status := 401,
    wwwAuthenticate :=
      some "Bearer realm=\"MCP\", resource_metadata=\"/mcp/.well-known/oauth-protected-resource\"",
    body := Body.rpcError (-32001) message }

/-- Which transport the `POST /mcp` handler selected to serve the
exchange: an existing one from the map, or a newly constructed
`StreamableHTTPServerTransport` whose `sessionIdGenerator` produces
`sid` (the SDK echoes that fresh id in the `Mcp-Session-Id` response
header while completing the `initialize` handshake). -/
inductive TransportSel where
  | existing (sid : String)
  | fresh (sid : String)
deriving DecidableEq, Repr

/-- Outcome of one `POST /mcp` exchange. -/
inductive PostOutcome where
  /-- `transport.handleRequest` completed the exchange. -/
  | handled (t : TransportSel)
  /-- `transport.handleRequest` (or `server.connect`) threw after the
  response headers were already flushed: the exchange is abandoned. -/
  | abandoned (t : TransportSel)
  /-- The handler answered with `r` itself (400 or 500). -/
  | errorResp (r : Response)
deriving DecidableEq, Repr

/-- Outcome of one `GET /mcp` or `DELETE /mcp` exchange. -/
inductive SimpleOutcome where
  | handled (sid : String)
  | errorResp (r : Response)
deriving DecidableEq, Repr

/-- The live session map `transports`, modelled by its set of keys
(the live session ids). -/
abbrev Transports := List String

/-- `delete transports[sid]` (the `transport.onclose` cleanup). -/
def removeTransport (ts : Transports) (sid : String) : Transports :=
  ts.filter (fun k => k != sid)

/-- The shared tail of the `POST /mcp` handler: `await
transport.handleRequest(req, res, req.body)` inside the `try`, with the
catch answering 500 only `if (!res.headersSent)`.  `throws` says whether
the awaited SDK call threw; `headersSent` is `res.headersSent` at catch
time. -/
def postFinish (sel : TransportSel) (throws headersSent : Bool) : PostOutcome :=
  if throws then
    if headersSent then PostOutcome.abandoned sel
    else PostOutcome.errorResp internalErrorResponse
  else PostOutcome.handled sel

namespace HttpTransport

/-! The OAuth-enabled `startHttpTransport`
(src/transports/http-transport.ts, lines 130-324). -/

/-- The `process.env` OAuth configuration read by `startHttpTransport`.
The source env var `OAUTH_OPAQUE_USER_API` is the field `userInfoApi`. -/
structure OAuthEnv where
  mcpResource : Option String
  authUrl : Option String
  baseUrl : Option String
  jwksUrl : Option String
  tokenUrl : Option String
  flow : Option String
  userInfoApi : Option String
deriving DecidableEq, Repr

/-- `const oauthEnabled = Boolean(OAUTH_MCP_RESOURCE && OAUTH_AUTH_URL &&
OAUTH_BASE_URL && OAUTH_JWKS_URL && OAUTH_TOKEN_URL)`. -/
def oauthEnabled (e : OAuthEnv) : Bool :=
  jsTruthy e.mcpResource && jsTruthy e.authUrl && jsTruthy e.baseUrl &&
    jsTruthy e.jwksUrl && jsTruthy e.tokenUrl

/-- `const flow = process.env.OAUTH_FLOW || 'jwt'`. -/
def middlewareFlow (e : OAuthEnv) : String :=
  jsOr e.flow "jwt"

/-- The `validationOptions` object built by the middleware for the
selected flow. -/
def middlewareOptions (e : OAuthEnv) : ValidationOptions :=
  if middlewareFlow e = "jwt" then
    { expectedAudience := e.mcpResource, jwksUri := e.jwksUrl, userInfoApi := none }
  else if middlewareFlow e = "opaque" then
    { expectedAudience := none, jwksUri := none,
      userInfoApi := some (jsOr e.userInfoApi "https://api.github.com/user") }
  else
    { expectedAudience := none, jwksUri := none, userInfoApi := none }

/-- Result of running the auth middleware on one request. -/
inductive MwResult where
  /-- `next()` was called; `user` is the payload attached to the request
  (`(req as any).user`), absent when the middleware skipped the check. -/
  | next (user : Option Json)
  /-- The middleware answered with `r` itself. -/
  | respond (r : Response)

/-- The `app.use('/mcp', ...)` authentication middleware
(src/transports/http-transport.ts, lines 167-208).  Returns the result
together with the validator cache after the call. -/
def authMiddleware (e : OAuthEnv) (jenv : JwtEnv) (cache : Cache)
    (req : Request) : MwResult × Cache :=
  if !(["POST", "GET", "DELETE"].contains req.method) then
    (MwResult.next none, cache)
  else
    match req.authorization with
    | none =>
      (MwResult.respond (unauthorizedResp "Unauthorized: Missing or invalid access token"), cache)
    | some authHeader =>
      if !(strStartsWith authHeader "Bearer ") then
        (MwResult.respond (unauthorizedResp "Unauthorized: Missing or invalid access token"), cache)
      else
        let token := authHeader.drop 7
        let r := validateAccessToken jenv token (middlewareFlow e) (middlewareOptions e) cache
        if r.1.valid then (MwResult.next r.1.payload, r.2.1)
        else
          (MwResult.respond
            (unauthorizedResp ("Unauthorized: " ++ jsOr r.1.reason "Invalid token")), r.2.1)

/-- The `GET /mcp/.well-known/oauth-protected-resource` route
(src/transports/http-transport.ts, lines 214-228). -/
def handleDiscovery (e : OAuthEnv) : Response :=
  if !(oauthEnabled e) then
    { status := 404, wwwAuthenticate := none,
      body := Body.errorJson "OAuth metadata not available: server is running unauthenticated." }
  else
    { status := 200, wwwAuthenticate := none,
      body := Body.discovery
        { resource := e.mcpResource,
          authorizationServers := [e.authUrl],
          issuer := e.baseUrl,
          jwksUri := e.jwksUrl,
          tokenEndpoint := e.tokenUrl,
          responseTypesSupported := ["code", "token"],
          grantTypesSupported := ["authorization_code", "client_credentials"] } }

/-- The `app.post('/mcp', ...)` handler
(src/transports/http-transport.ts, lines 231-294). -/
def handlePostMcp (transports : Transports) (req : Request)
    (freshSid : String) (throws headersSent : Bool) : PostOutcome :=
  if jsTruthy req.sessionId && transports.contains (req.sessionId.getD "") then
    postFinish (TransportSel.existing (req.sessionId.getD "")) throws headersSent
  else if !(jsTruthy req.sessionId) && (req.bodyMethod == some "initialize") then
    postFinish (TransportSel.fresh freshSid) throws headersSent
  else
    PostOutcome.errorResp badRequestResponse

/-- The `app.get('/mcp', ...)` handler
(src/transports/http-transport.ts, lines 297-306). -/
def handleGetMcp (transports : Transports) (req : Request) : SimpleOutcome :=
  if !(jsTruthy req.sessionId) || !(transports.contains (req.sessionId.getD "")) then
    SimpleOutcome.errorResp invalidSessionResponse
  else
    SimpleOutcome.handled (req.sessionId.getD "")

/-- The `app.delete('/mcp', ...)` handler
(src/transports/http-transport.ts, lines 309-318). -/
def handleDeleteMcp (transports : Transports) (req : Request) : SimpleOutcome :=
  if !(jsTruthy req.sessionId) || !(transports.contains (req.sessionId.getD "")) then
    SimpleOutcome.errorResp invalidSessionResponse
  else
    SimpleOutcome.handled (req.sessionId.getD "")

/-- Express mount-path matching for `app.use('/mcp', ...)`: the
middleware runs when the request path is the mount itself or extends it
past a `/` boundary (so `/mcp/.well-known/oauth-protected-resource`
matches). -/
def mountMatches (mount path : String) : Bool :=
  path == mount || strStartsWith path (mount ++ "/")

/-- Overall outcome of one HTTP exchange against the Express app. -/
inductive ServerOutcome where
  | post (o : PostOutcome)
  | get (o : SimpleOutcome)
  | del (o : SimpleOutcome)
  /-- A response produced before/instead of the `/mcp` handlers (the
  auth middleware's 401 or the discovery route). -/
  | resp (r : Response)
  /-- No registered route matched (Express's default 404). -/
  | noRoute
deriving DecidableEq, Repr

/-- The whole request pipeline of the OAuth-enabled `startHttpTransport`,
in Express registration order: the conditional auth middleware mounted at
`/mcp` first, then the discovery route, then `POST/GET/DELETE /mcp`.
Returns the outcome and the validator cache after the exchange. -/
def handleHttpRequest (e : OAuthEnv) (jenv : JwtEnv) (cache : Cache)
    (transports : Transports) (req : Request) (freshSid : String)
    (throws headersSent : Bool) : ServerOutcome × Cache :=
  let routed : Cache → ServerOutcome × Cache := fun c =>
    if req.method == "GET" && req.path == "/mcp/.well-known/oauth-protected-resource" then
      (ServerOutcome.resp (handleDiscovery e), c)
    else if req.method == "POST" && req.path == "/mcp" then
      (ServerOutcome.post (handlePostMcp transports req freshSid throws headersSent), c)
    else if req.method == "GET" && req.path == "/mcp" then
      (ServerOutcome.get (handleGetMcp transports req), c)
    else if req.method == "DELETE" && req.path == "/mcp" then
      (ServerOutcome.del (handleDeleteMcp transports req), c)
    else
      (ServerOutcome.noRoute, c)
  if oauthEnabled e && mountMatches "/mcp" req.path then
    match authMiddleware e jenv cache req with
    | (MwResult.next _, c2) => routed c2
    | (MwResult.respond r, c2) => (ServerOutcome.resp r, c2)
  else
    routed cache

end HttpTransport

namespace NoAuthTransport

/-! The no-auth variant of `startHttpTransport`
(src/transports/http-transport.ts, lines 7-122): the same Express app
without the OAuth middleware and discovery route. -/

/-- The `app.post('/mcp', ...)` handler of the no-auth variant
(lines 29-92). -/
def handlePostMcp (transports : Transports) (req : Request)
    (freshSid : String) (throws headersSent : Bool) : PostOutcome :=
  if jsTruthy req.sessionId && transports.contains (req.sessionId.getD "") then
    postFinish (TransportSel.existing (req.sessionId.getD "")) throws headersSent
  else if !(jsTruthy req.sessionId) && (req.bodyMethod == some "initialize") then
    postFinish (TransportSel.fresh freshSid) throws headersSent
  else
    PostOutcome.errorResp badRequestResponse

/-- The `app.get('/mcp', ...)` handler of the no-auth variant
(lines 95-104). -/
def handleGetMcp (transports : Transports) (req : Request) : SimpleOutcome :=
  if !(jsTruthy req.sessionId) || !(transports.contains (req.sessionId.getD "")) then
    SimpleOutcome.errorResp invalidSessionResponse
  else
    SimpleOutcome.handled (req.sessionId.getD "")

/-- The `app.delete('/mcp', ...)` handler of the no-auth variant
(lines 107-116). -/
def handleDeleteMcp (transports : Transports) (req : Request) : SimpleOutcome :=
  if !(jsTruthy req.sessionId) || !(transports.contains (req.sessionId.getD "")) then
    SimpleOutcome.errorResp invalidSessionResponse
  else
    SimpleOutcome.handled (req.sessionId.getD "")

end NoAuthTransport

namespace ServerRun

/-! The inline HTTP handlers installed by `D365MCPServer.run` with
`transport === 'http'` (src/server.ts, lines 782-902). -/

/-- The inline `app.post('/mcp', ...)` handler of `D365MCPServer.run`
(src/server.ts, lines 801-864). -/
def handlePostMcp (transports : Transports) (req : Request)
    (freshSid : String) (throws headersSent : Bool) : PostOutcome :=
  if jsTruthy req.sessionId && transports.contains (req.sessionId.getD "") then
    postFinish (TransportSel.existing (req.sessionId.getD "")) throws headersSent
  else if !(jsTruthy req.sessionId) && (req.bodyMethod == some "initialize") then
    postFinish (TransportSel.fresh freshSid) throws headersSent
  else
    PostOutcome.errorResp badRequestResponse

/-- The inline `app.get('/mcp', ...)` handler of `D365MCPServer.run`
(src/server.ts, lines 867-876). -/
def handleGetMcp (transports : Transports) (req : Request) : SimpleOutcome :=
  if !(jsTruthy req.sessionId) || !(transports.contains (req.sessionId.getD "")) then
    SimpleOutcome.errorResp invalidSessionResponse
  else
    SimpleOutcome.handled (req.sessionId.getD "")

/-- The inline `app.delete('/mcp', ...)` handler of `D365MCPServer.run`
(src/server.ts, lines 879-888). -/
def handleDeleteMcp (transports : Transports) (req : Request) : SimpleOutcome :=
  if !(jsTruthy req.sessionId) || !(transports.contains (req.sessionId.getD "")) then
    SimpleOutcome.errorResp invalidSessionResponse
  else
    SimpleOutcome.handled (req.sessionId.getD "")

end ServerRun

/-! ### Tool dispatcher (src/server.ts)

`setupToolHandlers` installs a `CallToolRequestSchema` handler whose
`switch (name)` dispatches to the private tool methods; the `default`
branch throws `Unknown tool: ${name}` and the surrounding `catch` wraps
any thrown error into an `isError: true` result.  The static catalog is
`getAvailableTools`; only `name` and `description` of each descriptor
are embedded (the `inputSchema` JSON blobs are never inspected by the
dispatch logic). -/

/-- One entry of a `CallToolResult`'s `content` array (always
`type: "text"` in this server). -/
structure ContentItem where
  type : String
  text : String
deriving DecidableEq, Repr

/-- A protocol-level tool result.  A successful source result omits the
`isError` field, which readers treat as false; it is modelled as
`isError := false`. -/
structure CallToolResult where
  content : List ContentItem
  isError : Bool
deriving DecidableEq, Repr

/-- A static catalog entry (name and description; the `inputSchema`
field is not modelled). -/
structure Tool where
  name : String
  description : String
deriving DecidableEq, Repr

/-- `getAvailableTools()` (src/server.ts, lines 147-378). -/
def getAvailableTools : List Tool :=
  [{ name := "get_entity_schema",
     description := "Get the schema/metadata for a specific Dynamics 365 entity" },
   { name := "get_attribute_schema",
     description := "Get detailed schema/metadata for a specific attribute of a Dynamics 365 entity, including options for picklists" },
   { name := "list_entities",
     description := "List all available entity sets in Dynamics 365" },
   { name := "query_entities",
     description := "Query entities with flexible filtering, sorting, and selection options" },
   { name := "get_entity",
     description := "Get a specific entity record by ID" },
   { name := "create_entity",
     description := "Create a new entity record" },
   { name := "update_entity",
     description := "Update an existing entity record" },
   { name := "delete_entity",
     description := "Delete an entity record" },
   { name := "execute_odata_query",
     description := "Execute a custom OData query directly" },
   { name := "execute_function",
     description := "Execute a Dynamics 365 function or action" }]

/-- The private tool method a `switch` case dispatches to. -/
inductive ToolInvocation where
  | getEntitySchema
  | getAttributeSchema
  | listEntities
  | queryEntities
  | getEntity
  | createEntity
  | updateEntity
  | deleteEntity
  | executeODataQuery
  | executeFunction
deriving DecidableEq, Repr

/-- The `catch`-wrapped result for the `default` branch's
`throw new Error('Unknown tool: ' + name)`. -/
def unknownToolResult (name : String) : CallToolResult :=
  { content := [{ type := "text", text := "Error executing " ++ name ++ ": Unknown tool: " ++ name }],
    isError := true }

/-- The `CallToolRequestSchema` handler's `switch (name)`
(src/server.ts, lines 92-144).  `impl inv` stands for
`await this.<method>(args)`; the returned list records which tool
methods (and hence which backing-service calls) the dispatch performed:
it is empty exactly when no method was invoked. -/
def callToolHandler (impl : ToolInvocation → CallToolResult)
    (name : String) : CallToolResult × List ToolInvocation :=
  if name = "get_entity_schema" then
    (impl ToolInvocation.getEntitySchema, [ToolInvocation.getEntitySchema])
  else if name = "get_attribute_schema" then
    (impl ToolInvocation.getAttributeSchema, [ToolInvocation.getAttributeSchema])
  else if name = "list_entities" then
    (impl ToolInvocation.listEntities, [ToolInvocation.listEntities])
  else if name = "query_entities" then
    (impl ToolInvocation.queryEntities, [ToolInvocation.queryEntities])
  else if name = "get_entity" then
    (impl ToolInvocation.getEntity, [ToolInvocation.getEntity])
  else if name = "create_entity" then
    (impl ToolInvocation.createEntity, [ToolInvocation.createEntity])
  else if name = "update_entity" then
    (impl ToolInvocation.updateEntity, [ToolInvocation.updateEntity])
  else if name = "delete_entity" then
    (impl ToolInvocation.deleteEntity, [ToolInvocation.deleteEntity])
  else if name = "execute_odata_query" then
    (impl ToolInvocation.executeODataQuery, [ToolInvocation.executeODataQuery])
  else if name = "execute_function" then
    (impl ToolInvocation.executeFunction, [ToolInvocation.executeFunction])
  else
    (unknownToolResult name, [])

/-! ### Tool methods getEntitySchema and queryEntities
(src/server.ts, lines 381-412 and 574-600)

The backing `D365ApiClient` is the external collaborator: its methods
are oracle functions returning a `D365ApiResponse`. -/

/-- `interface D365ApiResponse { success; data?; error?; statusCode? }`
(src/types.ts). -/
structure D365ApiResponse where
  success : Bool
  data : Option Json
  error : Option String
  statusCode : Option Nat

/-- The two `D365ApiClient` methods used by the embedded tool methods,
as oracles.  `queryEntities` receives the entity set name and the
`...options` rest object; `getEntityMetadata` receives the entity name
and the `includeAttributes` flag. -/
structure ApiClient where
  getEntityMetadata : String → Bool → D365ApiResponse
  queryEntities : String → Json → D365ApiResponse

/-- `JSON.stringify` on a JSON value (the `null, 2` pretty-printing
indentation of the source is not reproduced; only the rendered data is
modelled). -/
def jsonStringify : Json → String
  | Json.null => "null"
  | Json.bool b => if b then "true" else "false"
  | Json.num n => toString n
  | Json.str s => "\"" ++ s ++ "\""
  | Json.arr xs => "[" ++ jsonStringifyList xs ++ "]"
  | Json.obj fs => "\x7b" ++ jsonStringifyFields fs ++ "\x7d"
where
  jsonStringifyList : List Json → String
    | [] => ""
    | [x] => jsonStringify x
    | x :: xs => jsonStringify x ++ "," ++ jsonStringifyList xs
  jsonStringifyFields : List (String × Json) → String
    | [] => ""
    | [(k, v)] => "\"" ++ k ++ "\":" ++ jsonStringify v
    | (k, v) :: fs => "\"" ++ k ++ "\":" ++ jsonStringify v ++ "," ++ jsonStringifyFields fs

/-- `JSON.stringify` applied to a possibly-`undefined` value inside a
template literal (renders `"undefined"` when the value is absent). -/
def stringifyOpt : Option Json → String
  | some j => jsonStringify j
  | none => "undefined"

/-- `data.value?.length || 0` of a query result. -/
def queryResultCount (data : Option Json) : Nat :=
  match data with
  | some d =>
    match jsonField d "value" with
    | some (Json.arr xs) => xs.length
    | _ => 0
  | none => 0

/-- The destructured arguments of `queryEntities`:
`const { entitySet, ...options } = args`. -/
structure QueryEntitiesArgs where
  entitySet : String
  options : Json

/-- `D365MCPServer.queryEntities` (src/server.ts, lines 574-600). -/
def queryEntitiesTool (client : ApiClient) (args : QueryEntitiesArgs) : CallToolResult :=
  let result := client.queryEntities args.entitySet args.options
  if result.success then
    { content :=
        [{ type := "text",
           text := "Query results for \"" ++ args.entitySet ++ "\":\n\nCount: "
             ++ toString (queryResultCount result.data) ++ "\n\n" ++ stringifyOpt result.data }],
      isError := false }
  else
    { content :=
        [{ type := "text",
           text := "Failed to query entities from \"" ++ args.entitySet ++ "\": "
             ++ templateStr result.error }],
      isError := true }

/-- The destructured arguments of `getEntitySchema`:
`const { entityName, includeAttributes = true } = args`. -/
structure GetEntitySchemaArgs where
  entityName : String
  includeAttributes : Option Bool
deriving Repr

/-- `D365MCPServer.getEntitySchema` (src/server.ts, lines 381-412). -/
def getEntitySchemaTool (client : ApiClient) (args : GetEntitySchemaArgs) : CallToolResult :=
  let includeAttributes := args.includeAttributes.getD true
  let result := client.getEntityMetadata args.entityName includeAttributes
  if result.success then
    { content :=
        [{ type := "text",
           text := "Schema for entity \"" ++ args.entityName ++ "\":\n\n"
             ++ stringifyOpt result.data }],
      isError := false }
  else
    { content :=
        [{ type := "text",
           text := "Failed to get schema for entity \"" ++ args.entityName ++ "\": "
             ++ templateStr result.error }],
      isError := true }

/-! ### Concrete instances used by counterexamples and witnesses -/

/-- A `POST /mcp` request whose `mcp-session-id` header is present but
empty and whose body is an `initialize` call. -/
def emptyHeaderInitRequest : Request :=
  { method := "POST", path := "/mcp", sessionId := some "",
    authorization := none, bodyMethod := some "initialize" }

/-- A backing-service client whose calls fail with message `"boom"` and
status code 503. -/
def failingClient : ApiClient :=
  { getEntityMetadata := fun _ _ =>
      { success := false, data := none, error := some "boom", statusCode := some 503 },
    queryEntities := fun _ _ =>
      { success := false, data := none, error := some "boom", statusCode := some 503 } }

/-- A fully populated OAuth environment (authentication enabled). -/
def enabledEnv : HttpTransport.OAuthEnv :=
  { mcpResource := some "https://mcp.example", authUrl := some "https://auth.example",
    baseUrl := some "https://issuer.example", jwksUrl := some "https://jwks.example",
    tokenUrl := some "https://token.example", flow := none, userInfoApi := none }

/-- An OAuth environment with no settings (authentication disabled). -/
def disabledEnv : HttpTransport.OAuthEnv :=
  { mcpResource := none, authUrl := none, baseUrl := none, jwksUrl := none,
    tokenUrl := none, flow := none, userInfoApi := none }

/-- A validator environment whose oracles all fail (no network, nothing
decodes or verifies). -/
def trivialJwtEnv : JwtEnv :=
  { decode := fun _ => none,
    httpGet := fun _ => Except.error "network unavailable",
    httpGetBearer := fun _ _ => Except.error "network unavailable",
    jwkToPem := fun _ => Except.error "bad key",
    verify := fun _ _ => Except.error "invalid signature",
    now := 0, cacheTtl := 86400000 }

/-- A JWKS document holding one key with kid `"k1"`. -/
def sampleJwksDoc : Json :=
  Json.obj [("keys", Json.arr [Json.obj [("kid", Json.str "k1")]])]

/-- A validator environment in which every check succeeds: the decoded
header's kid `"k1"` matches the single key of the fetched JWKS document,
verification yields a payload without `exp` whose `aud` equals
`enabledEnv`'s resource. -/
def okJwtEnv : JwtEnv :=
  { decode := fun _ => some { kid := some "k1" },
    httpGet := fun _ => Except.ok { status := 200, data := sampleJwksDoc },
    httpGetBearer := fun _ _ => Except.error "network unavailable",
    jwkToPem := fun _ => Except.ok "PEM",
    verify := fun _ _ => Except.ok (Json.obj [("aud", Json.str "https://mcp.example")]),
    now := 0, cacheTtl := 86400000 }

/-- Like `okJwtEnv` but with clock `t` and cache TTL `ttl`, and a
payload with no claims (used for observing the JWKS fetch count). -/
def cachingJwtEnv (t ttl : Nat) : JwtEnv :=
  { decode := fun _ => some { kid := some "k1" },
    httpGet := fun _ => Except.ok { status := 200, data := sampleJwksDoc },
    httpGetBearer := fun _ _ => Except.error "network unavailable",
    jwkToPem := fun _ => Except.ok "PEM",
    verify := fun _ _ => Except.ok (Json.obj []),
    now := t, cacheTtl := ttl }

/-! ## Theorems -/

/-- C10: the inline `POST/GET/DELETE /mcp` handlers installed by
`D365MCPServer.run` with transport `'http'` and the handlers installed by
the no-auth variant of `startHttpTransport` are extensionally equivalent:
on every request they take the same branch on session-id presence, map
membership and `body.method === 'initialize'`, produce the same 400 and
500 response bodies, and delegate to the session transport in the same
cases. -/
theorem run_vs_transport_handlers_equiv :
    (∀ (ts : Transports) (req : Request) (fresh : String) (th hs : Bool),
        ServerRun.handlePostMcp ts req fresh th hs
          = NoAuthTransport.handlePostMcp ts req fresh th hs) ∧
    (∀ (ts : Transports) (req : Request),
        ServerRun.handleGetMcp ts req = NoAuthTransport.handleGetMcp ts req) ∧
    (∀ (ts : Transports) (req : Request),
        ServerRun.handleDeleteMcp ts req = NoAuthTransport.handleDeleteMcp ts req) :=
  ⟨fun _ _ _ _ _ => rfl, fun _ _ => rfl, fun _ _ => rfl⟩

/-- C7: a tool call whose name is not one of the ten names of the static
catalog produces the `isError: true` "Unknown tool" result and performs
no tool-method (hence no backing-service) invocation; the dispatcher
returns this as an ordinary protocol-level result, so the HTTP exchange
itself still succeeds. -/
theorem unknown_tool_rejected :
    (∀ (impl : ToolInvocation → CallToolResult) (name : String),
        name ∉ getAvailableTools.map Tool.name →
        callToolHandler impl name = (unknownToolResult name, [])) ∧
    getAvailableTools.map Tool.name =
      ["get_entity_schema", "get_attribute_schema", "list_entities", "query_entities",
       "get_entity", "create_entity", "update_entity", "delete_entity",
       "execute_odata_query", "execute_function"] ∧
    getAvailableTools.length = 10 ∧
    (∀ name, (unknownToolResult name).isError = true) := by
  refine ⟨?_, rfl, rfl, fun _ => rfl⟩
  intro impl name h
  simp [getAvailableTools] at h
  obtain ⟨h1, h2, h3, h4, h5, h6, h7, h8, h9, h10⟩ := h
  simp [callToolHandler, h1, h2, h3, h4, h5, h6, h7, h8, h9, h10]

/-- Witness for C7 at the concrete unknown name `"no_such_tool"`. -/
theorem unknown_tool_rejected_witness :
    callToolHandler (fun _ => { content := [], isError := false }) "no_such_tool"
      = (unknownToolResult "no_such_tool", []) :=
  unknown_tool_rejected.1 (fun _ => { content := [], isError := false }) "no_such_tool"
    (by decide)

/-- C8 counterexample: a backing-service failure
`{ success: false, error: "boom", statusCode: 503 }` on `query_entities`
is surfaced as an `isError: true` result whose text carries the error
message but NOT the status code: the digits `503` appear nowhere in the
produced content. -/
theorem tool_failure_counterexample :
    queryEntitiesTool failingClient { entitySet := "contacts", options := Json.obj [] }
      = { content :=
            [{ type := "text",
               text := "Failed to query entities from \"contacts\": boom" }],
          isError := true } ∧
    ¬ ("503".toList <:+: "Failed to query entities from \"contacts\": boom".toList) := by
  exact ⟨rfl, by decide⟩

/-- C8 (amended): a dispatched tool call whose backing-service invocation
returns `{ success: false, error, statusCode }` produces a protocol-level
error result (`isError: true`) carrying the collaborator's error message
(the status code is not included in the result), and the handler returns
this result normally — no exception escapes. -/
theorem tool_failure_surfacing :
    (∀ (client : ApiClient) (args : QueryEntitiesArgs) (errMsg : String)
        (d : Option Json) (sc : Option Nat),
        client.queryEntities args.entitySet args.options
          = { success := false, data := d, error := some errMsg, statusCode := sc } →
        queryEntitiesTool client args
          = { content :=
                [{ type := "text",
                   text := "Failed to query entities from \"" ++ args.entitySet
                     ++ "\": " ++ errMsg }],
              isError := true }) ∧
    (∀ (client : ApiClient) (args : GetEntitySchemaArgs) (errMsg : String)
        (d : Option Json) (sc : Option Nat),
        client.getEntityMetadata args.entityName (args.includeAttributes.getD true)
          = { success := false, data := d, error := some errMsg, statusCode := sc } →
        getEntitySchemaTool client args
          = { content :=
                [{ type := "text",
                   text := "Failed to get schema for entity \"" ++ args.entityName
                     ++ "\": " ++ errMsg }],
              isError := true }) := by
  constructor
  · intro client args errMsg d sc h
    simp [queryEntitiesTool, h, templateStr]
  · intro client args errMsg d sc h
    simp [getEntitySchemaTool, h, templateStr]

/-- Witness for C8 at the concrete failing client. -/
theorem tool_failure_surfacing_witness :
    queryEntitiesTool failingClient { entitySet := "accounts", options := Json.obj [] }
      = { content :=
            [{ type := "text",
               text := "Failed to query entities from \"accounts\": boom" }],
          isError := true } :=
  tool_failure_surfacing.1 failingClient { entitySet := "accounts", options := Json.obj [] }
    "boom" none (some 503) rfl

/-- C1 counterexample: a `POST /mcp` request that carries an
`mcp-session-id` header with the EMPTY value and an `initialize` body is
treated by the handler like a request with no session id: it creates a
new session transport instead of being rejected with 400, even though
the empty string is not a key of the (empty) session map. -/
theorem post_session_routing_counterexample :
    HttpTransport.handlePostMcp [] emptyHeaderInitRequest "fresh-session-1" false false
      = PostOutcome.handled (TransportSel.fresh "fresh-session-1") ∧
    ([] : Transports).contains "" = false ∧
    HttpTransport.handlePostMcp [] emptyHeaderInitRequest "fresh-session-1" false false
      ≠ PostOutcome.errorResp badRequestResponse := by
  refine ⟨rfl, rfl, ?_⟩
  decide

/-- C1 (amended): for every `POST /mcp` request: a non-empty
`mcp-session-id` header value that is a key of the live session map is
forwarded to that session's existing transport; an absent or empty
`mcp-session-id` header together with body method `"initialize"` creates
a new session transport whose generator produces the fresh id (echoed in
the `Mcp-Session-Id` response header by the SDK); in every other case —
a non-empty session id not currently in the map (including a freshly
removed one), or an absent/empty session id with a non-initialize
method — the server responds 400 with JSON-RPC code `-32000`; and a GET
(push channel) or DELETE request with a missing or unknown session id
receives 400. -/
theorem post_session_routing :
    (∀ (ts : Transports) (sid : String) (req : Request) (fresh : String) (th hs : Bool),
        req.sessionId = some sid → sid ≠ "" → ts.contains sid = true →
        HttpTransport.handlePostMcp ts req fresh th hs
          = postFinish (TransportSel.existing sid) th hs) ∧
    (∀ (ts : Transports) (req : Request) (fresh : String) (th hs : Bool),
        jsTruthy req.sessionId = false → req.bodyMethod = some "initialize" →
        HttpTransport.handlePostMcp ts req fresh th hs
          = postFinish (TransportSel.fresh fresh) th hs) ∧
    (∀ (ts : Transports) (sid : String) (req : Request) (fresh : String) (th hs : Bool),
        req.sessionId = some sid → sid ≠ "" → ts.contains sid = false →
        HttpTransport.handlePostMcp ts req fresh th hs
          = PostOutcome.errorResp badRequestResponse) ∧
    (∀ (ts : Transports) (req : Request) (fresh : String) (th hs : Bool),
        jsTruthy req.sessionId = false → req.bodyMethod ≠ some "initialize" →
        HttpTransport.handlePostMcp ts req fresh th hs
          = PostOutcome.errorResp badRequestResponse) ∧
    (∀ (ts : Transports) (sid : String) (req : Request) (fresh : String) (th hs : Bool),
        req.sessionId = some sid → sid ≠ "" →
        HttpTransport.handlePostMcp (removeTransport ts sid) req fresh th hs
          = PostOutcome.errorResp badRequestResponse) ∧
    (∀ (ts : Transports) (req : Request),
        jsTruthy req.sessionId = false ∨ ts.contains (req.sessionId.getD "") = false →
        HttpTransport.handleGetMcp ts req = SimpleOutcome.errorResp invalidSessionResponse) ∧
    (∀ (ts : Transports) (req : Request),
        jsTruthy req.sessionId = false ∨ ts.contains (req.sessionId.getD "") = false →
        HttpTransport.handleDeleteMcp ts req = SimpleOutcome.errorResp invalidSessionResponse) ∧
    badRequestResponse.status = 400 ∧
    badRequestResponse.body = Body.rpcError (-32000) "Bad Request: No valid session ID provided" ∧
    invalidSessionResponse.status = 400 := by
  refine ⟨?_, ?_, ?_, ?_, ?_, ?_, ?_, rfl, rfl, rfl⟩
  · intro ts sid req fresh th hs h1 h2 h3
    have h3m : sid ∈ ts := by simpa using h3
    simp [HttpTransport.handlePostMcp, h1, h2, h3m, jsTruthy]
  · intro ts req fresh th hs h1 h2
    simp [HttpTransport.handlePostMcp, h1, h2]
  · intro ts sid req fresh th hs h1 h2 h3
    have h3m : sid ∉ ts := by simpa using h3
    simp [HttpTransport.handlePostMcp, h1, h2, h3m, jsTruthy]
  · intro ts req fresh th hs h1 h2
    simp [HttpTransport.handlePostMcp, h1, h2]
  · intro ts sid req fresh th hs h1 h2
    have h3m : sid ∉ removeTransport ts sid := by
      simp [removeTransport]
    simp [HttpTransport.handlePostMcp, h1, h2, h3m, jsTruthy]
  · intro ts req h
    rcases h with h | h
    · simp [HttpTransport.handleGetMcp, h]
    · have hm : req.sessionId.getD "" ∉ ts := by simpa using h
      simp [HttpTransport.handleGetMcp, hm]
  · intro ts req h
    rcases h with h | h
    · simp [HttpTransport.handleDeleteMcp, h]
    · have hm : req.sessionId.getD "" ∉ ts := by simpa using h
      simp [HttpTransport.handleDeleteMcp, hm]

/-- Witness for C1 at concrete requests: a live session id is forwarded,
and a GET with no session id receives the 400 response. -/
theorem post_session_routing_witness :
    HttpTransport.handlePostMcp ["sess-1"]
        { method := "POST", path := "/mcp", sessionId := some "sess-1",
          authorization := none, bodyMethod := none } "f" false false
      = postFinish (TransportSel.existing "sess-1") false false ∧
    HttpTransport.handleGetMcp []
        { method := "GET", path := "/mcp", sessionId := none,
          authorization := none, bodyMethod := none }
      = SimpleOutcome.errorResp invalidSessionResponse := by
  constructor
  · exact post_session_routing.1 ["sess-1"] "sess-1"
      { method := "POST", path := "/mcp", sessionId := some "sess-1",
        authorization := none, bodyMethod := none } "f" false false rfl (by decide) (by decide)
  · exact post_session_routing.2.2.2.2.2.1 []
      { method := "GET", path := "/mcp", sessionId := none,
        authorization := none, bodyMethod := none } (Or.inl rfl)

/-- C2: authentication is enabled exactly when all five OAuth settings
are (truthily) present; when enabled, every `POST/GET/DELETE /mcp`
request whose `Authorization` header is missing, does not start with
`"Bearer "`, or carries a token failing validation receives HTTP 401
with a `WWW-Authenticate: Bearer` challenge and JSON-RPC code `-32001`
before any session handling (the outcome does not involve the session
map); when any setting is absent, the requests bypass the token check
entirely (the outcome is independent of the `Authorization` header and
of the validator). -/
theorem auth_gate_correctness :
    (∀ e : HttpTransport.OAuthEnv,
        HttpTransport.oauthEnabled e
          = (jsTruthy e.mcpResource && jsTruthy e.authUrl && jsTruthy e.baseUrl &&
             jsTruthy e.jwksUrl && jsTruthy e.tokenUrl)) ∧
    (∀ (e : HttpTransport.OAuthEnv) (jenv : JwtEnv) (cache : Cache) (ts : Transports)
        (req : Request) (fresh : String) (th hs : Bool),
        HttpTransport.oauthEnabled e = true → req.path = "/mcp" →
        req.method ∈ ["POST", "GET", "DELETE"] →
        req.authorization = none →
        HttpTransport.handleHttpRequest e jenv cache ts req fresh th hs
          = (HttpTransport.ServerOutcome.resp
              (unauthorizedResp "Unauthorized: Missing or invalid access token"), cache)) ∧
    (∀ (e : HttpTransport.OAuthEnv) (jenv : JwtEnv) (cache : Cache) (ts : Transports)
        (req : Request) (fresh : String) (th hs : Bool) (a : String),
        HttpTransport.oauthEnabled e = true → req.path = "/mcp" →
        req.method ∈ ["POST", "GET", "DELETE"] →
        req.authorization = some a → strStartsWith a "Bearer " = false →
        HttpTransport.handleHttpRequest e jenv cache ts req fresh th hs
          = (HttpTransport.ServerOutcome.resp
              (unauthorizedResp "Unauthorized: Missing or invalid access token"), cache)) ∧
    (∀ (e : HttpTransport.OAuthEnv) (jenv : JwtEnv) (cache : Cache) (ts : Transports)
        (req : Request) (fresh : String) (th hs : Bool) (a : String),
        HttpTransport.oauthEnabled e = true → req.path = "/mcp" →
        req.method ∈ ["POST", "GET", "DELETE"] →
        req.authorization = some a → strStartsWith a "Bearer " = true →
        (validateAccessToken jenv (a.drop 7) (HttpTransport.middlewareFlow e)
            (HttpTransport.middlewareOptions e) cache).1.valid = false →
        HttpTransport.handleHttpRequest e jenv cache ts req fresh th hs
          = (HttpTransport.ServerOutcome.resp
              (unauthorizedResp ("Unauthorized: "
                ++ jsOr (validateAccessToken jenv (a.drop 7) (HttpTransport.middlewareFlow e)
                    (HttpTransport.middlewareOptions e) cache).1.reason "Invalid token")),
             (validateAccessToken jenv (a.drop 7) (HttpTransport.middlewareFlow e)
                (HttpTransport.middlewareOptions e) cache).2.1)) ∧
    (∀ m, (unauthorizedResp m).status = 401 ∧
        (unauthorizedResp m).wwwAuthenticate
          = some "Bearer realm=\"MCP\", resource_metadata=\"/mcp/.well-known/oauth-protected-resource\"" ∧
        (unauthorizedResp m).body = Body.rpcError (-32001) m) ∧
    (∀ (e : HttpTransport.OAuthEnv) (jenv jenv2 : JwtEnv) (cache : Cache) (ts : Transports)
        (req : Request) (fresh : String) (th hs : Bool) (a1 a2 : Option String),
        HttpTransport.oauthEnabled e = false →
        HttpTransport.handleHttpRequest e jenv cache ts
            { req with authorization := a1 } fresh th hs
          = HttpTransport.handleHttpRequest e jenv2 cache ts
              { req with authorization := a2 } fresh th hs) := by
  refine ⟨fun _ => rfl, ?_, ?_, ?_, fun m => ⟨rfl, rfl, rfl⟩, ?_⟩
  · intro e jenv cache ts req fresh th hs h1 h2 h3 h4
    simp [HttpTransport.handleHttpRequest, HttpTransport.mountMatches,
      HttpTransport.authMiddleware, h1, h2, h3, h4]
  · intro e jenv cache ts req fresh th hs a h1 h2 h3 h4 h5
    simp [HttpTransport.handleHttpRequest, HttpTransport.mountMatches,
      HttpTransport.authMiddleware, h1, h2, h3, h4, h5]
  · intro e jenv cache ts req fresh th hs a h1 h2 h3 h4 h5 h6
    simp [HttpTransport.handleHttpRequest, HttpTransport.mountMatches,
      HttpTransport.authMiddleware, h1, h2, h3, h4, h5, h6]
  · intro e jenv jenv2 cache ts req fresh th hs a1 a2 h1
    simp [HttpTransport.handleHttpRequest, h1, HttpTransport.handlePostMcp,
      HttpTransport.handleGetMcp, HttpTransport.handleDeleteMcp]

/-- Witness for C2: with all five settings present, an unauthenticated
`POST /mcp` initialize request is rejected 401 before session handling;
with none present, the outcome is independent of the header. -/
theorem auth_gate_correctness_witness :
    HttpTransport.handleHttpRequest enabledEnv trivialJwtEnv [] []
        { method := "POST", path := "/mcp", sessionId := none,
          authorization := none, bodyMethod := some "initialize" } "f" false false
      = (HttpTransport.ServerOutcome.resp
          (unauthorizedResp "Unauthorized: Missing or invalid access token"), []) ∧
    HttpTransport.handleHttpRequest disabledEnv trivialJwtEnv [] []
        { method := "POST", path := "/mcp", sessionId := none,
          authorization := none, bodyMethod := some "initialize" } "f" false false
      = HttpTransport.handleHttpRequest disabledEnv okJwtEnv [] []
          { method := "POST", path := "/mcp", sessionId := none,
            authorization := some "Bearer tok", bodyMethod := some "initialize" } "f" false false := by
  constructor
  · exact auth_gate_correctness.2.1 enabledEnv trivialJwtEnv [] []
      { method := "POST", path := "/mcp", sessionId := none,
        authorization := none, bodyMethod := some "initialize" } "f" false false
      (by decide) rfl (by decide) rfl
  · exact auth_gate_correctness.2.2.2.2.2 disabledEnv trivialJwtEnv okJwtEnv [] []
      { method := "POST", path := "/mcp", sessionId := none,
        authorization := none, bodyMethod := some "initialize" } "f" false false
      none (some "Bearer tok") (by decide)

/-- C9: with authentication enabled, requests to `/mcp` whose method is
not `POST`, `GET` or `DELETE` (e.g. an `OPTIONS` preflight) are passed
through by the auth middleware without the `Authorization` header being
examined: two such requests differing only in that header produce the
same outcome. -/
theorem non_session_methods_bypass_auth :
    (∀ (e : HttpTransport.OAuthEnv) (jenv : JwtEnv) (cache : Cache) (req : Request)
        (a1 a2 : Option String),
        req.method ∉ ["POST", "GET", "DELETE"] →
        HttpTransport.authMiddleware e jenv cache { req with authorization := a1 }
            = (HttpTransport.MwResult.next none, cache) ∧
        HttpTransport.authMiddleware e jenv cache { req with authorization := a2 }
            = (HttpTransport.MwResult.next none, cache)) ∧
    (∀ (e : HttpTransport.OAuthEnv) (jenv : JwtEnv) (cache : Cache) (ts : Transports)
        (req : Request) (fresh : String) (th hs : Bool) (a1 a2 : Option String),
        HttpTransport.oauthEnabled e = true →
        req.method ∉ ["POST", "GET", "DELETE"] →
        HttpTransport.handleHttpRequest e jenv cache ts
            { req with authorization := a1 } fresh th hs
          = HttpTransport.handleHttpRequest e jenv cache ts
              { req with authorization := a2 } fresh th hs) := by
  constructor
  · intro e jenv cache req a1 a2 h
    constructor <;> simp [HttpTransport.authMiddleware, h]
  · intro e jenv cache ts req fresh th hs a1 a2 h1 h2
    simp at h2
    obtain ⟨hp, hg, hd⟩ := h2
    simp [HttpTransport.handleHttpRequest, HttpTransport.authMiddleware, hp, hg, hd]

/-- Witness for C9 at a concrete `OPTIONS /mcp` preflight. -/
theorem non_session_methods_bypass_auth_witness :
    HttpTransport.authMiddleware enabledEnv trivialJwtEnv []
        { method := "OPTIONS", path := "/mcp", sessionId := none,
          authorization := none, bodyMethod := none }
      = (HttpTransport.MwResult.next none, []) ∧
    HttpTransport.authMiddleware enabledEnv trivialJwtEnv []
        { method := "OPTIONS", path := "/mcp", sessionId := none,
          authorization := some "Bearer tok", bodyMethod := none }
      = (HttpTransport.MwResult.next none, []) := by
  exact (non_session_methods_bypass_auth.1 enabledEnv trivialJwtEnv []
    { method := "OPTIONS", path := "/mcp", sessionId := none,
      authorization := none, bodyMethod := none } none (some "Bearer tok") (by decide)).imp
    (fun h => h) (fun h => h)

/-- C3 (code-level bug): the auth middleware is mounted at the `/mcp`
prefix, which also matches `/mcp/.well-known/oauth-protected-resource`;
with authentication enabled, an unauthenticated `GET` of the discovery
endpoint is therefore answered 401 by the middleware and never reaches
the discovery route — even though the middleware's own
`WWW-Authenticate` challenge directs unauthenticated clients to exactly
this endpoint.  The route itself (reached with valid credentials, or
with auth disabled) behaves as specified: the full discovery document,
or the 404 payload. -/
theorem discovery_endpoint_gated :
    HttpTransport.handleHttpRequest enabledEnv trivialJwtEnv [] []
        { method := "GET", path := "/mcp/.well-known/oauth-protected-resource",
          sessionId := none, authorization := none, bodyMethod := none } "f" false false
      = (HttpTransport.ServerOutcome.resp
          (unauthorizedResp "Unauthorized: Missing or invalid access token"), []) ∧
    HttpTransport.mountMatches "/mcp" "/mcp/.well-known/oauth-protected-resource" = true ∧
    HttpTransport.handleDiscovery enabledEnv
      = { status := 200, wwwAuthenticate := none,
          body := Body.discovery
            { resource := some "https://mcp.example",
              authorizationServers := [some "https://auth.example"],
              issuer := some "https://issuer.example",
              jwksUri := some "https://jwks.example",
              tokenEndpoint := some "https://token.example",
              responseTypesSupported := ["code", "token"],
              grantTypesSupported := ["authorization_code", "client_credentials"] } } ∧
    HttpTransport.handleHttpRequest disabledEnv trivialJwtEnv [] []
        { method := "GET", path := "/mcp/.well-known/oauth-protected-resource",
          sessionId := none, authorization := none, bodyMethod := none } "f" false false
      = (HttpTransport.ServerOutcome.resp
          { status := 404, wwwAuthenticate := none,
            body := Body.errorJson
              "OAuth metadata not available: server is running unauthenticated." }, []) ∧
    (HttpTransport.handleHttpRequest enabledEnv okJwtEnv [] []
        { method := "GET", path := "/mcp/.well-known/oauth-protected-resource",
          sessionId := none, authorization := some "Bearer tok", bodyMethod := none }
        "f" false false).1
      = HttpTransport.ServerOutcome.resp (HttpTransport.handleDiscovery enabledEnv) := by
  exact ⟨rfl, by decide, rfl, rfl, rfl⟩

/-- Every result of the jwt-flow tail is either a `validResult` or an
`invalidResult` (helper for the shape analysis of the validator). -/
theorem validateJwtWithKeys_shape (env : JwtEnv) (token : String)
    (options : ValidationOptions) (kid : Option String) (jwksData : Json)
    (c : Cache) (calls : Nat) :
    (∃ p, (validateAccessToken.validateJwtWithKeys env token options kid jwksData c calls).1
        = validResult p) ∨
    (∃ m, (validateAccessToken.validateJwtWithKeys env token options kid jwksData c calls).1
        = invalidResult m) := by
  unfold validateAccessToken.validateJwtWithKeys
  dsimp only
  repeat' split
  all_goals first
    | exact Or.inl ⟨_, rfl⟩
    | exact Or.inr ⟨_, rfl⟩

/-- C4: `validateAccessToken` never throws past its boundary — for every
token, flow, options and oracle behaviour its result is either
`{ valid: true, payload }` or `{ valid: false, reason }` — and each
failure kind resolves to its own reason string: malformed token, missing
JWKS URI, no matching key, signature mismatch (the verifier's thrown
message), expiry, audience mismatch, introspection failure (carrying the
status) and unsupported flow; the fixed reason strings are pairwise
distinct. -/
theorem validate_access_token_total_kinds :
    (∀ (env : JwtEnv) (token flow : String) (options : ValidationOptions) (cache : Cache),
        (∃ p, (validateAccessToken env token flow options cache).1 = validResult p) ∨
        (∃ m, (validateAccessToken env token flow options cache).1 = invalidResult m)) ∧
    (∀ (g : String → Except String HttpResp) (gb : String → String → Except String HttpResp)
        (pm : Json → Except String String) (v : String → String → Except String Json)
        (now ttl : Nat) (token : String) (options : ValidationOptions) (cache : Cache),
        (validateAccessToken ⟨fun _ => none, g, gb, pm, v, now, ttl⟩
            token "jwt" options cache).1 = invalidResult "Invalid token") ∧
    (∀ (kid : Option String) (g : String → Except String HttpResp)
        (gb : String → String → Except String HttpResp) (pm : Json → Except String String)
        (v : String → String → Except String Json) (now ttl : Nat) (token : String)
        (aud uapi : Option String) (cache : Cache),
        (validateAccessToken ⟨fun _ => some ⟨kid⟩, g, gb, pm, v, now, ttl⟩
            token "jwt" ⟨aud, none, uapi⟩ cache).1 = invalidResult "Missing JWKS URI") ∧
    (∀ (gb : String → String → Except String HttpResp) (pm : Json → Except String String)
        (v : String → String → Except String Json) (now ttl : Nat) (token : String)
        (aud uapi : Option String),
        (validateAccessToken
            ⟨fun _ => some ⟨some "k1"⟩,
             fun _ => Except.ok ⟨200, Json.obj [("keys", Json.arr [Json.obj [("kid", Json.str "k2")]])]⟩,
             gb, pm, v, now, ttl⟩
            token "jwt" ⟨aud, some "https://jwks.example", uapi⟩ []).1
          = invalidResult "No matching JWK found for kid") ∧
    (∀ (gb : String → String → Except String HttpResp) (now ttl : Nat) (token : String)
        (aud uapi : Option String) (msg : String),
        (validateAccessToken
            ⟨fun _ => some ⟨some "k1"⟩, fun _ => Except.ok ⟨200, sampleJwksDoc⟩,
             gb, fun _ => Except.ok "PEM", fun _ _ => Except.error msg, now, ttl⟩
            token "jwt" ⟨aud, some "https://jwks.example", uapi⟩ []).1
          = invalidResult msg) ∧
    (∀ (gb : String → String → Except String HttpResp) (ttl : Nat) (token : String)
        (aud uapi : Option String),
        (validateAccessToken
            ⟨fun _ => some ⟨some "k1"⟩, fun _ => Except.ok ⟨200, sampleJwksDoc⟩,
             gb, fun _ => Except.ok "PEM",
             fun _ _ => Except.ok (Json.obj [("exp", Json.num 1)]), 2000, ttl⟩
            token "jwt" ⟨aud, some "https://jwks.example", uapi⟩ []).1
          = invalidResult "Token expired") ∧
    (∀ (gb : String → String → Except String HttpResp) (now ttl : Nat) (token : String)
        (uapi : Option String),
        (validateAccessToken
            ⟨fun _ => some ⟨some "k1"⟩, fun _ => Except.ok ⟨200, sampleJwksDoc⟩,
             gb, fun _ => Except.ok "PEM",
             fun _ _ => Except.ok (Json.obj [("aud", Json.str "other")]), now, ttl⟩
            token "jwt" ⟨some "expected", some "https://jwks.example", uapi⟩ []).1
          = invalidResult "Token audience mismatch") ∧
    (∀ (dec : String → Option DecodedHeader) (g : String → Except String HttpResp)
        (pm : Json → Except String String) (v : String → String → Except String Json)
        (now ttl : Nat) (token : String) (aud juri : Option String) (d : Json),
        (validateAccessToken ⟨dec, g, fun _ _ => Except.ok ⟨500, d⟩, pm, v, now, ttl⟩
            token "opaque" ⟨aud, juri, none⟩ []).1
          = invalidResult "Opaque token validation failed: 500") ∧
    (∀ (env : JwtEnv) (token : String) (options : ValidationOptions) (cache : Cache),
        (validateAccessToken env token "basic" options cache).1
          = invalidResult "Unsupported flow") ∧
    List.Pairwise (· ≠ ·)
      ["Invalid token", "Missing JWKS URI", "No matching JWK found for kid",
       "Token expired", "Token audience mismatch",
       "Opaque token validation failed: 500", "Unsupported flow"] := by
  refine ⟨?_, fun _ _ _ _ _ _ _ _ _ => rfl, fun _ _ _ _ _ _ _ _ _ _ _ => rfl,
    fun _ _ _ _ _ _ _ _ => rfl, fun _ _ _ _ _ _ _ => rfl, fun _ _ _ _ _ => rfl,
    fun _ _ _ _ _ => rfl, ?_, fun _ _ _ _ => rfl,
    by decide⟩
  case refine_2 =>
    intro dec g pm v now ttl token aud juri d
    unfold validateAccessToken
    simp [getCachedData, cacheGet]
    exact congrArg invalidResult rfl
  intro env token flow options cache
  unfold validateAccessToken
  dsimp only
  repeat' split
  all_goals
    first
      | exact Or.inl ⟨_, rfl⟩
      | exact Or.inr ⟨_, rfl⟩
      | apply validateJwtWithKeys_shape

/-- C5 counterexample: in the opaque flow, a 204 response from the
introspection endpoint — a 200-class (2xx) status — yields
`{ valid: false }` with an "Opaque token validation failed" reason, not
`{ valid: true }`: the code accepts only status exactly 200. -/
theorem opaque_flow_status_counterexample :
    (validateAccessToken
        { decode := fun _ => none, httpGet := fun _ => Except.error "nc",
          httpGetBearer := fun _ _ => Except.ok { status := 204, data := Json.null },
          jwkToPem := fun _ => Except.error "e", verify := fun _ _ => Except.error "e",
          now := 0, cacheTtl := 1000 }
        "tok" "opaque" { expectedAudience := none, jwksUri := none, userInfoApi := none } []).1
      = invalidResult "Opaque token validation failed: 204" ∧
    200 ≤ 204 ∧ 204 < 300 := by
  exact ⟨rfl, by norm_num, by norm_num⟩

/-- C5 (amended): in the opaque flow with no cached entry, a response
with status exactly 200 yields `{ valid: true, payload: <body> }`; a
response with any other status (including other 2xx statuses) yields
`{ valid: false }` with a reason carrying the status, and a network
failure yields `{ valid: false }` with the thrown message. -/
theorem opaque_flow_status :
    (∀ (dec : String → Option DecodedHeader) (g : String → Except String HttpResp)
        (pm : Json → Except String String) (v : String → String → Except String Json)
        (now ttl : Nat) (token : String) (opts : ValidationOptions) (s : Nat) (d : Json),
        s ≠ 200 →
        (validateAccessToken ⟨dec, g, fun _ _ => Except.ok ⟨s, d⟩, pm, v, now, ttl⟩
            token "opaque" opts []).1
          = invalidResult ("Opaque token validation failed: " ++ toString s)) ∧
    (∀ (dec : String → Option DecodedHeader) (g : String → Except String HttpResp)
        (pm : Json → Except String String) (v : String → String → Except String Json)
        (now ttl : Nat) (token : String) (opts : ValidationOptions) (d : Json),
        (validateAccessToken ⟨dec, g, fun _ _ => Except.ok ⟨200, d⟩, pm, v, now, ttl⟩
            token "opaque" opts []).1
          = validResult d) ∧
    (∀ (dec : String → Option DecodedHeader) (g : String → Except String HttpResp)
        (pm : Json → Except String String) (v : String → String → Except String Json)
        (now ttl : Nat) (token : String) (opts : ValidationOptions) (msg : String),
        (validateAccessToken ⟨dec, g, fun _ _ => Except.error msg, pm, v, now, ttl⟩
            token "opaque" opts []).1
          = invalidResult msg) := by
  refine ⟨?_, fun _ _ _ _ _ _ _ _ _ => rfl, fun _ _ _ _ _ _ _ _ _ => rfl⟩
  intro dec g pm v now ttl token opts s d h
  unfold validateAccessToken
  simp [getCachedData, cacheGet, h]

/-- Witness for C5 at status 404. -/
theorem opaque_flow_status_witness :
    (validateAccessToken
        ⟨fun _ => none, fun _ => Except.error "nc",
         fun _ _ => Except.ok ⟨404, Json.null⟩, fun _ => Except.error "e",
         fun _ _ => Except.error "e", 0, 1000⟩ "tok" "opaque"
        ⟨none, none, none⟩ []).1
      = invalidResult "Opaque token validation failed: 404" :=
  opaque_flow_status.1 (fun _ => none) (fun _ => Except.error "nc")
    (fun _ => Except.error "e") (fun _ _ => Except.error "e") 0 1000 "tok"
    ⟨none, none, none⟩ 404 Json.null (by decide)

/-- C6: a cached entry is returned only while `now < expiry`; an entry
whose expiry has passed is deleted by the lookup that finds it expired;
and in the jwt flow, two key-set fetches for the same JWKS URI within
the TTL window perform exactly one network call (1 then 0), while a
third fetch issued after TTL expiry performs a second network call. -/
theorem jwks_cache_ttl :
    (∀ (now : Nat) (c : Cache) (key : String) (d : Json) (c2 : Cache),
        getCachedData now c key = (some d, c2) →
        c2 = c ∧ ∃ e, cacheGet c key = some e ∧ now < e.expiry ∧ e.data = d) ∧
    (∀ (now : Nat) (c : Cache) (key : String) (e : CacheEntry),
        cacheGet c key = some e → ¬ now < e.expiry →
        getCachedData now c key = (none, cacheDelete c key)) ∧
    (∀ (t0 t1 t2 ttl : Nat) (uri token : String),
        uri ≠ "" → t1 < t0 + ttl → t0 + ttl ≤ t2 →
        (validateAccessToken (cachingJwtEnv t0 ttl) token "jwt"
            { expectedAudience := none, jwksUri := some uri, userInfoApi := none } []).2.2 = 1 ∧
        (validateAccessToken (cachingJwtEnv t1 ttl) token "jwt"
            { expectedAudience := none, jwksUri := some uri, userInfoApi := none }
            (validateAccessToken (cachingJwtEnv t0 ttl) token "jwt"
              { expectedAudience := none, jwksUri := some uri, userInfoApi := none } []).2.1).2.2
          = 0 ∧
        (validateAccessToken (cachingJwtEnv t2 ttl) token "jwt"
            { expectedAudience := none, jwksUri := some uri, userInfoApi := none }
            (validateAccessToken (cachingJwtEnv t1 ttl) token "jwt"
              { expectedAudience := none, jwksUri := some uri, userInfoApi := none }
              (validateAccessToken (cachingJwtEnv t0 ttl) token "jwt"
                { expectedAudience := none, jwksUri := some uri, userInfoApi := none } []).2.1).2.1).2.2
          = 1) := by
  refine ⟨?_, ?_, ?_⟩
  · intro now c key d c2 h
    unfold getCachedData at h
    rcases hg : cacheGet c key with _ | e
    · rw [hg] at h
      simp at h
    · rw [hg] at h
      dsimp only at h
      by_cases hlt : now < e.expiry
      · rw [if_pos hlt] at h
        simp only [Prod.mk.injEq, Option.some.injEq] at h
        exact ⟨h.2.symm, e, rfl, hlt, h.1⟩
      · rw [if_neg hlt] at h
        simp at h
  · intro now c key e hg hlt
    unfold getCachedData
    rw [hg]
    dsimp only
    rw [if_neg hlt]
  · intro t0 t1 t2 ttl uri token h0 h1 h2
    have e0 : validateAccessToken (cachingJwtEnv t0 ttl) token "jwt"
        { expectedAudience := none, jwksUri := some uri, userInfoApi := none } []
        = (validResult (Json.obj []),
           [("jwks:" ++ uri, { data := sampleJwksDoc, expiry := t0 + ttl })], 1) := by
      unfold validateAccessToken cachingJwtEnv
      simp [getCachedData, cacheGet, setCachedData, cacheSet, cacheDelete, h0,
        validateAccessToken.validateJwtWithKeys, jwksKeys, jwkKid, jsonField,
        sampleJwksDoc, expiredCheck, audMismatch]
    have e1 : validateAccessToken (cachingJwtEnv t1 ttl) token "jwt"
        { expectedAudience := none, jwksUri := some uri, userInfoApi := none }
        [("jwks:" ++ uri, { data := sampleJwksDoc, expiry := t0 + ttl })]
        = (validResult (Json.obj []),
           [("jwks:" ++ uri, { data := sampleJwksDoc, expiry := t0 + ttl })], 0) := by
      unfold validateAccessToken cachingJwtEnv
      simp [getCachedData, cacheGet, List.lookup, h0, h1,
        validateAccessToken.validateJwtWithKeys, jwksKeys, jwkKid, jsonField,
        sampleJwksDoc, expiredCheck, audMismatch]
    have e2 : (validateAccessToken (cachingJwtEnv t2 ttl) token "jwt"
        { expectedAudience := none, jwksUri := some uri, userInfoApi := none }
        [("jwks:" ++ uri, { data := sampleJwksDoc, expiry := t0 + ttl })]).2.2 = 1 := by
      have hnl : ¬ t2 < t0 + ttl := not_lt.mpr h2
      unfold validateAccessToken cachingJwtEnv
      simp [getCachedData, cacheGet, cacheDelete, List.lookup, h0, hnl,
        validateAccessToken.validateJwtWithKeys, jwksKeys, jwkKid, jsonField,
        sampleJwksDoc, expiredCheck, audMismatch]
    refine ⟨by rw [e0], by rw [e0, e1], ?_⟩
    rw [e0, e1]
    exact e2

/-- Witness for C6: a concrete three-fetch run (times 0, 1, 10 with TTL
10) performs 1, 0 and 1 network calls, and concrete cache lookups
exercise the usability and lazy-eviction clauses. -/
theorem jwks_cache_ttl_witness :
    (([("k", ({ data := Json.null, expiry := 5 } : CacheEntry))] : Cache)
        = [("k", { data := Json.null, expiry := 5 })] ∧
      ∃ e, cacheGet [("k", { data := Json.null, expiry := 5 })] "k" = some e ∧
        3 < e.expiry ∧ e.data = Json.null) ∧
    getCachedData 7 [("k", ({ data := Json.null, expiry := 5 } : CacheEntry))] "k"
      = (none, cacheDelete [("k", { data := Json.null, expiry := 5 })] "k") ∧
    (validateAccessToken (cachingJwtEnv 0 10) "tok" "jwt"
        { expectedAudience := none, jwksUri := some "https://jwks.example", userInfoApi := none }
        []).2.2 = 1 ∧
    (validateAccessToken (cachingJwtEnv 1 10) "tok" "jwt"
        { expectedAudience := none, jwksUri := some "https://jwks.example", userInfoApi := none }
        (validateAccessToken (cachingJwtEnv 0 10) "tok" "jwt"
          { expectedAudience := none, jwksUri := some "https://jwks.example", userInfoApi := none }
          []).2.1).2.2 = 0 ∧
    (validateAccessToken (cachingJwtEnv 10 10) "tok" "jwt"
        { expectedAudience := none, jwksUri := some "https://jwks.example", userInfoApi := none }
        (validateAccessToken (cachingJwtEnv 1 10) "tok" "jwt"
          { expectedAudience := none, jwksUri := some "https://jwks.example", userInfoApi := none }
          (validateAccessToken (cachingJwtEnv 0 10) "tok" "jwt"
            { expectedAudience := none, jwksUri := some "https://jwks.example", userInfoApi := none }
            []).2.1).2.1).2.2 = 1 := by
  refine ⟨jwks_cache_ttl.1 3 _ "k" Json.null _ rfl,
    jwks_cache_ttl.2.1 7 _ "k" { data := Json.null, expiry := 5 } rfl (by decide), ?_⟩
  exact jwks_cache_ttl.2.2 0 1 10 10 "https://jwks.example" "tok"
    (by decide) (by decide) (by decide)

end D365
